import Mathlib

/-!
Verification of the vproj daemon/transport subsystem
(`src/scripts/vproj/src/vproj/daemon.py` and the orchestration slice of
`src/scripts/vproj/src/vproj/vivado.py`) against its specification.

The Python code is shallowly embedded: the wire side of one TCP exchange is a
`WireInput` (did the connect/send phase succeed, which complete lines arrived
before the stream ended, and how it ended), and `_send_tcl_to_port`'s
response-reading loop becomes the recursive function `readLoop`.
-/

namespace VProj

/-- Pending status recorded by the response loop (`status = "OK"` / `"ERROR"`
in `_send_tcl_to_port`). -/
inductive Status
  | ok
  | error
deriving DecidableEq

/-- Outcome of one `_send_tcl_to_port` call.  `success` is a normal return
carrying the accumulated output lines; `protocolFailure` is the
`RuntimeError("\n".join(response_lines))` raised for a remote `ERROR` status;
`transportFailure` is any socket-level exception (connect refused, timeout,
read error) propagating out of the call. -/
inductive SendResult
  | success (out : List String)
  | protocolFailure (out : List String)
  | transportFailure
deriving DecidableEq

/-- How the byte stream ends when no `END_RESPONSE` line was seen:
`eof` models `sock.recv` returning empty (worker closed the connection),
`recvError` models `sock.recv` raising (timeout / socket error). -/
inductive StreamEnd
  | eof
  | recvError
deriving DecidableEq

/-- The network behaviour observed by one exchange: whether the
connect-and-send phase succeeded, the complete lines received (without the
terminating newline), and how the stream ended if `END_RESPONSE` never
arrived.  Lines after an `END_RESPONSE` line are irrelevant: the client
returns upon processing it. -/
structure WireInput where
  connectOk : Bool
  lines : List String
  endKind : StreamEnd
deriving DecidableEq

/-- `line.decode("utf-8", errors="replace").rstrip("\r")`: remove all
trailing carriage returns from a received line. -/
def stripCR (s : String) : String :=
  String.mk ((s.data.reverse.dropWhile (fun c => c == '\r')).reverse)

/-- The inner line-processing loop of `_send_tcl_to_port` (daemon.py lines
300-314), applied to the complete lines received.  `Sum.inl` is a `return` /
`raise` triggered by an `END_RESPONSE` line; `Sum.inr` means the lines were
exhausted without `END_RESPONSE`, carrying the accumulated output and the
pending status. -/
def readLoop : List String → List String → Option Status →
    SendResult ⊕ (List String × Option Status)
  | [], acc, st => Sum.inr (acc, st)
  | l :: rest, acc, st =>
    let s := stripCR l
    if s = "END_RESPONSE" then
      if st = some Status.error then Sum.inl (SendResult.protocolFailure acc)
      else Sum.inl (SendResult.success acc)
    else if s = "OK" then readLoop rest acc (some Status.ok)
    else if s = "ERROR" then readLoop rest acc (some Status.error)
    else readLoop rest (acc ++ [s]) st

/-- `_send_tcl_to_port` (daemon.py lines 263-322).  A failed connect/send
phase raises a socket exception (transport failure).  Otherwise the received
lines are processed; if they run out without `END_RESPONSE`, a recv error
raises a transport failure, while a clean close (`recv` returned empty)
falls through to lines 316-319: raise the protocol failure if the pending
status was `ERROR`, else return the accumulated output. -/
def sendTclToPort (w : WireInput) : SendResult :=
  if !w.connectOk then SendResult.transportFailure
  else
    match readLoop w.lines [] none with
    | Sum.inl r => r
    | Sum.inr (acc, st) =>
      match w.endKind with
      | StreamEnd.recvError => SendResult.transportFailure
      | StreamEnd.eof =>
        if st = some Status.error then SendResult.protocolFailure acc
        else SendResult.success acc

example : sendTclToPort ⟨true, ["hello"], StreamEnd.eof⟩
    = SendResult.success ["hello"] := by decide

example : sendTclToPort ⟨true, ["a", "b", "ERROR", "END_RESPONSE"], StreamEnd.eof⟩
    = SendResult.protocolFailure ["a", "b"] := by decide

example : sendTclToPort ⟨true, ["x", "OK", "END_RESPONSE"], StreamEnd.eof⟩
    = SendResult.success ["x"] := by decide

example : sendTclToPort ⟨true, ["x\r", "OK\r", "END_RESPONSE\r"], StreamEnd.eof⟩
    = SendResult.success ["x"] := by decide

example : sendTclToPort ⟨false, [], StreamEnd.eof⟩
    = SendResult.transportFailure := by decide

example : sendTclToPort ⟨true, ["x"], StreamEnd.recvError⟩
    = SendResult.transportFailure := by decide

/-- The output lines a run of the loop collects from a stream that never
terminates: every line that is not a status line, after CR stripping. -/
def collect : List String → List String
  | [] => []
  | l :: rest =>
    let s := stripCR l
    if s = "OK" then collect rest
    else if s = "ERROR" then collect rest
    else s :: collect rest

/-- The pending status after processing a stream with no `END_RESPONSE`:
the last `OK`/`ERROR` line wins, the initial status otherwise. -/
def statusFold : Option Status → List String → Option Status
  | st, [] => st
  | st, l :: rest =>
    let s := stripCR l
    if s = "OK" then statusFold (some Status.ok) rest
    else if s = "ERROR" then statusFold (some Status.error) rest
    else statusFold st rest

/-- A line the response loop treats as plain output: CR-clean and distinct
from every protocol-significant line. -/
def OutputLine (s : String) : Prop :=
  stripCR s = s ∧ s ≠ "END_RESPONSE" ∧ s ≠ "OK" ∧ s ≠ "ERROR"

instance (s : String) : Decidable (OutputLine s) := by
  unfold OutputLine; infer_instance

/-- A line safe to use inside a request payload: plain output when echoed,
and also distinct from the request sentinel. -/
def PayloadLine (s : String) : Prop :=
  OutputLine s ∧ s ≠ "END_CMD"

instance (s : String) : Decidable (PayloadLine s) := by
  unfold PayloadLine; infer_instance

theorem readLoop_cons_ok (rest acc st) :
    readLoop ("OK" :: rest) acc st = readLoop rest acc (some Status.ok) := rfl

theorem readLoop_cons_error (rest acc st) :
    readLoop ("ERROR" :: rest) acc st = readLoop rest acc (some Status.error) := rfl

theorem readLoop_cons_end (acc : List String) (rest : List String) :
    readLoop ("END_RESPONSE" :: rest) acc (some Status.error)
      = Sum.inl (SendResult.protocolFailure acc) := rfl

theorem readLoop_cons_plain {l : String} (h1 : stripCR l ≠ "END_RESPONSE")
    (h2 : stripCR l ≠ "OK") (h3 : stripCR l ≠ "ERROR") (rest acc st) :
    readLoop (l :: rest) acc st = readLoop rest (acc ++ [stripCR l]) st := by
  simp [readLoop, h1, h2, h3]

/-- Processing a block of plain output lines just appends their stripped
forms to the accumulator, touching neither status nor control flow. -/
theorem readLoop_append_plain (ps : List String)
    (h : ∀ p ∈ ps, stripCR p ≠ "END_RESPONSE" ∧ stripCR p ≠ "OK" ∧ stripCR p ≠ "ERROR") :
    ∀ rest acc st,
      readLoop (ps ++ rest) acc st = readLoop rest (acc ++ ps.map stripCR) st := by
  induction ps with
  | nil => intro rest acc st; simp
  | cons p ps ih =>
    intro rest acc st
    have hp := h p (by simp)
    rw [List.cons_append, readLoop_cons_plain hp.1 hp.2.1 hp.2.2]
    rw [ih (fun q hq => h q (by simp [hq])) rest]
    simp

/-- A stream with no `END_RESPONSE` line exhausts the loop, leaving the
collected output and the folded status. -/
theorem readLoop_no_sentinel (ls : List String)
    (h : ∀ l ∈ ls, stripCR l ≠ "END_RESPONSE") :
    ∀ acc st,
      readLoop ls acc st = Sum.inr (acc ++ collect ls, statusFold st ls) := by
  induction ls with
  | nil => intro acc st; simp [collect, statusFold, readLoop]
  | cons l ls ih =>
    intro acc st
    have hl := h l (by simp)
    have hrest : ∀ q ∈ ls, stripCR q ≠ "END_RESPONSE" := fun q hq => h q (by simp [hq])
    by_cases hOK : stripCR l = "OK"
    · have hstep : readLoop (l :: ls) acc st = readLoop ls acc (some Status.ok) := by
        rw [readLoop]; simp [hOK]
      have hc : collect (l :: ls) = collect ls := by
        rw [collect]; simp [hOK]
      have hs : statusFold st (l :: ls) = statusFold (some Status.ok) ls := by
        rw [statusFold]; simp [hOK]
      rw [hstep, ih hrest, hc, hs]
    · by_cases hERR : stripCR l = "ERROR"
      · have hstep : readLoop (l :: ls) acc st = readLoop ls acc (some Status.error) := by
          rw [readLoop]; simp [hERR]
        have hc : collect (l :: ls) = collect ls := by
          rw [collect]; simp [hERR]
        have hs : statusFold st (l :: ls) = statusFold (some Status.error) ls := by
          rw [statusFold]; simp [hERR]
        rw [hstep, ih hrest, hc, hs]
      · have hc : collect (l :: ls) = stripCR l :: collect ls := by
          rw [collect]; simp [hOK, hERR]
        have hs : statusFold st (l :: ls) = statusFold st ls := by
          rw [statusFold]; simp [hOK, hERR]
        rw [readLoop_cons_plain hl hOK hERR, ih hrest, hc, hs]
        simp

/-! ## Discovery (`find_server`, daemon.py lines 66-106) -/

/-- ASCII whitespace stripped by `str.strip()`. -/
def isPySpace (c : Char) : Bool :=
  c == ' ' || c == '\t' || c == '\n' || c == '\x0d' || c == '\x0b' || c == '\x0c'

/-- `content.strip()` on both ends. -/
def pyStrip (s : String) : String :=
  String.mk (((s.data.dropWhile isPySpace).reverse.dropWhile isPySpace).reverse)

/-- `int(port_file.read_text().strip())`: optional sign, then decimal
digits.  (Python's `int` additionally allows digit-group underscores, which
no port file written by the worker contains; that corner is not modelled.)
`none` models the `ValueError` branch. -/
def parsePort (content : String) : Option Int :=
  match (pyStrip content).data with
  | [] => none
  | c :: rest =>
    let digits := if c == '-' || c == '+' then rest else c :: rest
    if !digits.isEmpty && digits.all Char.isDigit then
      let n : Nat := digits.foldl (fun acc d => acc * 10 + (d.toNat - 48)) 0
      some (if c == '-' then -(n : Int) else (n : Int))
    else none

example : parsePort " 3723\n" = some 3723 := by decide
example : parsePort "garbage" = none := by decide
example : parsePort "" = none := by decide
example : parsePort "12x" = none := by decide
example : parsePort "-7" = some (-7) := by decide

/-- Does `pat` occur at the head of `l`? -/
def listStartsWith : List Char → List Char → Bool
  | [], _ => true
  | _ :: _, [] => false
  | p :: ps, c :: cs => p == c && listStartsWith ps cs

/-- Does `pat` occur contiguously anywhere in `l`?  (Python's `in` on
strings.) -/
def listContainsSeg (pat : List Char) : List Char → Bool
  | [] => listStartsWith pat []
  | c :: cs => listStartsWith pat (c :: cs) || listContainsSeg pat cs

/-- `"PONG" in result` where `result` is `"\n".join(response_lines)`. -/
def containsPong (out : List String) : Bool :=
  listContainsSeg "PONG".data (List.intercalate ['\n'] (out.map String.data))

example : containsPong ["PONG"] = true := by decide
example : containsPong ["vproj PONG 3723"] = true := by decide
example : containsPong ["HELLO"] = false := by decide

/-- The filesystem state `find_server` reads and may mutate: the port file
(its content, when it exists) and the GUI `.xpr.lck` lock indicator, which
this subsystem only observes. -/
structure DiscoveryState where
  portFile : Option String
  lockPresent : Bool
deriving DecidableEq

/-- Result of `find_server` (the `proj_dir` field, constant here, is
omitted). -/
structure ServerInfo where
  running : Bool
  port : Option Int
  isGui : Bool
deriving DecidableEq

/-- `find_server` (daemon.py lines 66-106): read and parse the port file,
ping the recorded port, and accept the server only when the ping response
contains `PONG`.  The port file is deleted exactly when the ping raises
(`except Exception`); the parse-failure branch and the completed-ping
branches leave the state untouched.  Returns the `ServerInfo` together with
the resulting filesystem state. -/
def findServer (st : DiscoveryState) (ping : WireInput) :
    ServerInfo × DiscoveryState :=
  match st.portFile with
  | none => (⟨false, none, st.lockPresent⟩, st)
  | some content =>
    match parsePort content with
    | none => (⟨false, none, st.lockPresent⟩, st)
    | some port =>
      match sendTclToPort ping with
      | SendResult.success out =>
        if containsPong out then (⟨true, some port, st.lockPresent⟩, st)
        else (⟨false, none, st.lockPresent⟩, st)
      | _ => (⟨false, none, st.lockPresent⟩, ⟨none, st.lockPresent⟩)

/-- `_cleanup_files`: best-effort removal of the port file. -/
def cleanupFiles (st : DiscoveryState) : DiscoveryState :=
  ⟨none, st.lockPresent⟩

/-! ## Stop (`stop_daemon`, daemon.py lines 231-260) -/

/-- `SOCKET_TIMEOUT = 5.0`, the timeout (in seconds) passed to the `QUIT`
send in `stop_daemon`. -/
def quitTimeout : Nat := 5

/-- What `stop_daemon` did: its boolean result, the final filesystem state,
and the commands it sent (command text paired with the timeout in
seconds). -/
structure StopOutcome where
  ok : Bool
  state : DiscoveryState
  sent : List (String × Nat)
deriving DecidableEq

/-- `stop_daemon` (daemon.py lines 231-260): discover; if not running,
clean up the port file and report success; if running, send `QUIT` with a
5-second timeout inside `try/except Exception: pass` (so any reply or
dropped connection, `quitWire`, is ignored), then clean up and report
success. -/
def stopDaemon (st : DiscoveryState) (ping quitWire : WireInput) : StopOutcome :=
  let fs := findServer st ping
  if !fs.1.running then
    ⟨true, cleanupFiles fs.2, []⟩
  else
    -- the QUIT exchange outcome is swallowed whatever it is
    let _ := sendTclToPort quitWire
    ⟨true, cleanupFiles fs.2, [("QUIT", quitTimeout)]⟩

/-! ## Daemon start log redirection (`start_daemon`, daemon.py lines 200-208,
and `_get_log_file`, lines 30-33) -/

/-- `_get_log_file`: `/tmp/vproj-<uid>.log`, a function of the calling
user's id only — no workspace component. -/
def getLogFile (uid : Nat) : String :=
  "/tmp/vproj-" ++ toString uid ++ ".log"

/-- Python `open` modes used for the daemon log. -/
inductive OpenMode
  | write
  | append
deriving DecidableEq

/-- daemon.py line 201: `with open(log_file, "w") as log:`. -/
def logOpenMode : OpenMode := OpenMode.write

/-- Contents of a file right after `open` on existing contents `prev`:
`"w"` truncates, `"a"` keeps. -/
def openedContents : OpenMode → String → String
  | OpenMode.write, _ => ""
  | OpenMode.append, prev => prev

/-- Log contents after `start_daemon` opens the log and the spawned worker
writes `out` to it, starting from previous contents `prev`. -/
def logAfterStart (prev out : String) : String :=
  openedContents logOpenMode prev ++ out

/-! ## Socket lifecycle of one exchange (`_send_tcl_to_port`, daemon.py
lines 278-322) -/

/-- Socket operations performed by `_send_tcl_to_port`: `socket.socket(...)`,
`sock.connect`, the `sendall` phase, and `sock.close()` in the `finally`
block. -/
inductive SockOp
  | openSock
  | connectSock
  | sendCmd
  | closeSock
deriving DecidableEq

/-- `_send_tcl_to_port` together with the socket operations it performs, in
order.  A fresh socket is created at the top of the call; the `finally`
block closes it on every path out of the `try`, whether the call returns or
raises.  `connectOk = false` abstracts a connect/send-phase exception (the
trace then stops at the failed `connect`). -/
def sendTclToPortOps (w : WireInput) : SendResult × List SockOp :=
  if !w.connectOk then
    (SendResult.transportFailure,
     [SockOp.openSock, SockOp.connectSock, SockOp.closeSock])
  else
    let r :=
      match readLoop w.lines [] none with
      | Sum.inl r => r
      | Sum.inr (acc, st) =>
        match w.endKind with
        | StreamEnd.recvError => SendResult.transportFailure
        | StreamEnd.eof =>
          if st = some Status.error then SendResult.protocolFailure acc
          else SendResult.success acc
    (r, [SockOp.openSock, SockOp.connectSock, SockOp.sendCmd, SockOp.closeSock])

/-! ## Streaming send variant

`vivado.py` line 354 invokes `send_tcl(tcl, proj_dir=pd,
output_callback=handle_output)`, but the `send_tcl` in `src/daemon.py` has
no such parameter (nor do the imported `set_interrupt_flag` /
`clear_interrupt_flag` exist there): the streaming revision of the daemon
module is not part of `src/`. -/

/-- Events observable around the output callback of the streaming send:
one `callbackLine` per invocation of the callback, and `sentinelDone`
when the terminating `END_RESPONSE` line is processed. -/
inductive StreamEvent
  | callbackLine (s : String)
  | sentinelDone
deriving DecidableEq

/-- Modelled from the spec: the response loop of the streaming variant of
the transport send (absent from `src/daemon.py`; only its caller at
`vivado.py` line 354 is in `src/`).  Per the spec, it is the ordinary
response loop with "an output-line callback invoked incrementally as lines
arrive (before the terminating sentinel)"; status lines are not output
lines.  The returned list is the event trace: callback invocations in the
order performed, then the sentinel processing that ends the exchange. -/
def streamEvents : List String → List StreamEvent
  | [] => []
  | l :: rest =>
    let s := stripCR l
    if s = "END_RESPONSE" then [StreamEvent.sentinelDone]
    else if s = "OK" then streamEvents rest
    else if s = "ERROR" then streamEvents rest
    else StreamEvent.callbackLine s :: streamEvents rest

/-- Modelled from the spec: event trace of one streaming exchange over the
wire behaviour `w`. -/
def sendTclStreamingEvents (w : WireInput) : List StreamEvent :=
  if !w.connectOk then [] else streamEvents w.lines

/-! ## The automatic dispatcher (`run_vivado_tcl_auto`, vivado.py lines
214-391) -/

/-- What a `run_vivado_tcl_auto` call does, seen from its caller:
`daemonResult code out` is a normal return from the server path (`0` with
the streamed output on success, `1` with the error text of the
`RuntimeError` on a remote failure); `oneShot code` means the command was
executed by `run_vivado_tcl` in a disposable batch process which returned
`code`; the remaining constructors are the `ClickException` raise sites. -/
inductive AutoOutcome
  | daemonResult (code : Nat) (out : List String)
  | oneShot (code : Nat)
  | guiLockError
  | noGuiError
  | daemonOverLockError
  | launchError
deriving DecidableEq

/-- `send_tcl` (daemon.py lines 325-349): rediscover, raise
`RuntimeError("Server not running")` when discovery fails, otherwise
perform the exchange.  `serverNotRunning` stands for that `RuntimeError`. -/
inductive SendTclOutcome
  | result (r : SendResult)
  | serverNotRunning
deriving DecidableEq

/-- The behaviour of the `send_tcl` call inside the dispatcher:
`sendRunning` is what `send_tcl`'s own `find_server` reports, `wire` the
network behaviour of the exchange it then performs. -/
def sendTclRun (sendRunning : Bool) (wire : WireInput) : SendTclOutcome :=
  if !sendRunning then SendTclOutcome.serverNotRunning
  else SendTclOutcome.result (sendTclToPort wire)

/-- The `# Use server` tail of `run_vivado_tcl_auto` (vivado.py lines
314-390): a normal `send_tcl` return yields code 0 with the output; a
`RuntimeError` (remote `ERROR` status, or server-not-running) is caught at
line 371 and returned as code 1 with the error text — never a fallback; any
other exception (socket/transport) is caught at line 380 and falls back to
one `run_vivado_tcl` batch execution whose result is returned. -/
def useServer (sendRunning : Bool) (wire : WireInput) (batchCode : Nat) :
    AutoOutcome :=
  match sendTclRun sendRunning wire with
  | SendTclOutcome.result (SendResult.success out) =>
    AutoOutcome.daemonResult 0 out
  | SendTclOutcome.result (SendResult.protocolFailure out) =>
    AutoOutcome.daemonResult 1 out
  | SendTclOutcome.result SendResult.transportFailure =>
    AutoOutcome.oneShot batchCode
  | SendTclOutcome.serverNotRunning =>
    AutoOutcome.daemonResult 1 ["Server not running"]

/-- The `# Auto-detect mode` block of `run_vivado_tcl_auto` (vivado.py
lines 292-312) followed by the server tail: with a reachable server, use
it; with a GUI lock and no server, raise; otherwise try `start_daemon`,
falling back to one `run_vivado_tcl` batch execution when it reports
failure.  (After a successful start the code re-runs `find_server` but
never reads the result — `send_tcl` performs its own discovery, modelled by
`sendRunning`.) -/
def autoDetect (running isGui startOk sendRunning : Bool) (wire : WireInput)
    (batchCode : Nat) : AutoOutcome :=
  if !running then
    if isGui then AutoOutcome.guiLockError
    else if !startOk then AutoOutcome.oneShot batchCode
    else useServer sendRunning wire batchCode
  else useServer sendRunning wire batchCode

/-- `run_vivado_tcl_auto` (vivado.py lines 214-391).  `batch`/`gui`/`daemon`
are the mode flags; `running`/`isGui` the first `find_server` result;
`startOk` the result `start_daemon` would report; `running2`/`isGui2` the
discovery result after a daemon-forced start; `sendRunning`/`wire` the
behaviour of the eventual `send_tcl` call; `batchCode` the exit code a
`run_vivado_tcl` batch execution would return. -/
def runVivadoTclAuto (batch gui daemon running isGui startOk running2 isGui2
    sendRunning : Bool) (wire : WireInput) (batchCode : Nat) : AutoOutcome :=
  if batch then AutoOutcome.oneShot batchCode
  else if gui && !running then
    if isGui then AutoOutcome.guiLockError else AutoOutcome.noGuiError
  else if daemon then
    if isGui then AutoOutcome.daemonOverLockError
    else if !running then
      if !startOk then AutoOutcome.launchError
      else autoDetect running2 isGui2 startOk sendRunning wire batchCode
    else autoDetect running isGui startOk sendRunning wire batchCode
  else autoDetect running isGui startOk sendRunning wire batchCode

/-! ## Helper lemmas shared by the claim theorems -/

theorem outputLine_plain {p : String} (h : OutputLine p) :
    stripCR p ≠ "END_RESPONSE" ∧ stripCR p ≠ "OK" ∧ stripCR p ≠ "ERROR" := by
  obtain ⟨h0, h1, h2, h3⟩ := h
  rw [h0]
  exact ⟨h1, h2, h3⟩

theorem map_stripCR_eq_self (ps : List String) (h : ∀ p ∈ ps, stripCR p = p) :
    ps.map stripCR = ps := by
  induction ps with
  | nil => rfl
  | cons p ps ih =>
    simp only [List.map_cons, h p (by simp), List.cons.injEq, true_and]
    exact ih (fun q hq => h q (by simp [hq]))

/-! ## Claim theorems -/

/-- C1 counterexample: a worker that writes the single output line `hello`
and then closes the connection without `END_RESPONSE` makes
`_send_tcl_to_port` return the partial output as a successful result — it
does not raise a transport failure, contrary to the claim. -/
theorem c1_counterexample :
    sendTclToPort ⟨true, ["hello"], StreamEnd.eof⟩ = SendResult.success ["hello"] ∧
    sendTclToPort ⟨true, ["hello"], StreamEnd.eof⟩ ≠ SendResult.transportFailure := by
  decide

/-- C1 (amended): when the worker closes the connection cleanly after zero
or more lines and before `END_RESPONSE`, `_send_tcl_to_port` raises no
transport failure: it raises the protocol failure carrying the accumulated
output when the pending status was `ERROR`, and otherwise returns the
accumulated partial output as a successful result (daemon.py lines
316-319). -/
theorem c1_mid_stream_disconnect_returns_partial (w : WireInput)
    (hc : w.connectOk = true) (he : w.endKind = StreamEnd.eof)
    (h : ∀ l ∈ w.lines, stripCR l ≠ "END_RESPONSE") :
    sendTclToPort w =
      (if statusFold none w.lines = some Status.error
       then SendResult.protocolFailure (collect w.lines)
       else SendResult.success (collect w.lines)) := by
  unfold sendTclToPort
  rw [hc, he, readLoop_no_sentinel w.lines h [] none]
  simp

/-- C1 witness: the amended statement at the concrete disconnect input. -/
theorem c1_mid_stream_disconnect_returns_partial_witness :
    sendTclToPort ⟨true, ["hello"], StreamEnd.eof⟩ =
      (if statusFold none ["hello"] = some Status.error
       then SendResult.protocolFailure (collect ["hello"])
       else SendResult.success (collect ["hello"])) :=
  c1_mid_stream_disconnect_returns_partial ⟨true, ["hello"], StreamEnd.eof⟩
    rfl rfl (by decide)

/-- C4: for a payload of non-sentinel lines (distinct from `END_CMD`,
`END_RESPONSE`, `OK`, `ERROR`, and CR-clean), an echo worker answering with
the payload lines followed by `OK` / `END_RESPONSE` yields client output
exactly equal to the payload, in order; and an `OK` or `ERROR` line only
records the pending status — the loop continues, only `END_RESPONSE`
terminates the exchange. -/
theorem c4_echo_round_trip :
    (∀ ps : List String, (∀ p ∈ ps, PayloadLine p) →
      sendTclToPort ⟨true, ps ++ ["OK", "END_RESPONSE"], StreamEnd.eof⟩
        = SendResult.success ps) ∧
    (∀ rest acc st,
      readLoop ("OK" :: rest) acc st = readLoop rest acc (some Status.ok)) ∧
    (∀ rest acc st,
      readLoop ("ERROR" :: rest) acc st = readLoop rest acc (some Status.error)) := by
  refine ⟨?_, readLoop_cons_ok, readLoop_cons_error⟩
  intro ps h
  have hplain := fun p hp => outputLine_plain (h p hp).1
  have hmap := map_stripCR_eq_self ps (fun p hp => ((h p hp).1).1)
  have hloop : readLoop (ps ++ ["OK", "END_RESPONSE"]) [] none
      = Sum.inl (SendResult.success (ps.map stripCR)) := by
    rw [readLoop_append_plain ps hplain]
    rfl
  simp [sendTclToPort, hloop, hmap]

/-- C4 witness: the round trip at a concrete two-line payload. -/
theorem c4_echo_round_trip_witness :
    sendTclToPort
        ⟨true, ["line one", "line two"] ++ ["OK", "END_RESPONSE"], StreamEnd.eof⟩
      = SendResult.success ["line one", "line two"] :=
  c4_echo_round_trip.1 ["line one", "line two"] (by decide)

/-- C5: a response of output lines followed by `ERROR` then `END_RESPONSE`
makes `_send_tcl_to_port` raise the protocol failure (the `RuntimeError` of
daemon.py line 307) carrying exactly those output lines — not a transport
failure. -/
theorem c5_error_status_raises_protocol_failure (out : List String)
    (h : ∀ p ∈ out, OutputLine p) :
    sendTclToPort ⟨true, out ++ ["ERROR", "END_RESPONSE"], StreamEnd.eof⟩
        = SendResult.protocolFailure out ∧
    sendTclToPort ⟨true, out ++ ["ERROR", "END_RESPONSE"], StreamEnd.eof⟩
        ≠ SendResult.transportFailure := by
  have hplain := fun p hp => outputLine_plain (h p hp)
  have hmap := map_stripCR_eq_self out (fun p hp => (h p hp).1)
  have hloop : readLoop (out ++ ["ERROR", "END_RESPONSE"]) [] none
      = Sum.inl (SendResult.protocolFailure (out.map stripCR)) := by
    rw [readLoop_append_plain out hplain]
    rfl
  constructor
  · simp [sendTclToPort, hloop, hmap]
  · simp [sendTclToPort, hloop]

/-- C5 witness: the two-line instance described in the spec. -/
theorem c5_error_status_raises_protocol_failure_witness :
    sendTclToPort
        ⟨true, ["boom one", "boom two"] ++ ["ERROR", "END_RESPONSE"], StreamEnd.eof⟩
        = SendResult.protocolFailure ["boom one", "boom two"] ∧
    sendTclToPort
        ⟨true, ["boom one", "boom two"] ++ ["ERROR", "END_RESPONSE"], StreamEnd.eof⟩
        ≠ SendResult.transportFailure :=
  c5_error_status_raises_protocol_failure ["boom one", "boom two"] (by decide)

theorem streamEvents_append_plain (ps rest : List String)
    (h : ∀ p ∈ ps, stripCR p ≠ "END_RESPONSE" ∧ stripCR p ≠ "OK" ∧ stripCR p ≠ "ERROR") :
    streamEvents (ps ++ rest)
      = ps.map (fun p => StreamEvent.callbackLine (stripCR p)) ++ streamEvents rest := by
  induction ps with
  | nil => simp
  | cons p ps ih =>
    have hp := h p (by simp)
    have hstep : streamEvents (p :: (ps ++ rest))
        = StreamEvent.callbackLine (stripCR p) :: streamEvents (ps ++ rest) := by
      rw [streamEvents]
      simp [hp.1, hp.2.1, hp.2.2]
    rw [List.cons_append, hstep, ih (fun q hq => h q (by simp [hq]))]
    simp

theorem map_callback_stripCR (ps : List String) (h : ∀ p ∈ ps, stripCR p = p) :
    ps.map (fun p => StreamEvent.callbackLine (stripCR p))
      = ps.map StreamEvent.callbackLine := by
  induction ps with
  | nil => rfl
  | cons q qs ih =>
    simp only [List.map_cons, h q (by simp), List.cons.injEq, true_and]
    exact ih (fun r hr => h r (by simp [hr]))

/-- C3: the streaming send variant (spec-modelled, see
`sendTclStreamingEvents`) invokes the output callback exactly once per
output line of the response, in arrival order, and every invocation happens
before the terminating `END_RESPONSE` sentinel is processed: the event
trace is exactly the callback events in payload order followed by the
sentinel event. -/
theorem c3_streaming_callback_once_per_line (ps : List String)
    (statusLine : String) (e : StreamEnd)
    (h : ∀ p ∈ ps, OutputLine p)
    (hs : statusLine = "OK" ∨ statusLine = "ERROR") :
    sendTclStreamingEvents ⟨true, ps ++ [statusLine, "END_RESPONSE"], e⟩
      = ps.map StreamEvent.callbackLine ++ [StreamEvent.sentinelDone] := by
  have hplain := fun p hp => outputLine_plain (h p hp)
  have hmap := map_callback_stripCR ps (fun p hp => (h p hp).1)
  have htail : streamEvents [statusLine, "END_RESPONSE"]
      = [StreamEvent.sentinelDone] := by
    rcases hs with h1 | h1 <;> subst h1 <;> rfl
  have hev : streamEvents (ps ++ [statusLine, "END_RESPONSE"])
      = ps.map StreamEvent.callbackLine ++ [StreamEvent.sentinelDone] := by
    rw [streamEvents_append_plain ps _ hplain, htail, hmap]
  simp [sendTclStreamingEvents, hev]

/-- C3 witness: a two-line response streamed with an `OK` status. -/
theorem c3_streaming_callback_once_per_line_witness :
    sendTclStreamingEvents
        ⟨true, ["a", "b"] ++ ["OK", "END_RESPONSE"], StreamEnd.eof⟩
      = ["a", "b"].map StreamEvent.callbackLine ++ [StreamEvent.sentinelDone] :=
  c3_streaming_callback_once_per_line ["a", "b"] "OK" StreamEnd.eof (by decide)
    (Or.inl rfl)

/-- C2: in automatic mode (`batch = gui = daemon = false`), a remote
protocol failure (`ERROR` status) is returned to the caller as code 1 with
the remote output and never triggers the batch fallback; a transport-level
failure falls back to exactly one disposable `run_vivado_tcl` execution
whose result is returned; and when the first discovery finds nothing, no
lock is present and `start_daemon` fails, the command is likewise executed
via the one-shot path instead of raising a launch failure. -/
theorem c2_auto_dispatch_failure_policy :
    (∀ (running running2 isGui2 : Bool) (wire : WireInput) (out : List String)
        (batchCode : Nat),
        sendTclToPort wire = SendResult.protocolFailure out →
        runVivadoTclAuto false false false running false true running2 isGui2 true
            wire batchCode = AutoOutcome.daemonResult 1 out) ∧
    (∀ (running running2 isGui2 : Bool) (wire : WireInput) (batchCode : Nat),
        sendTclToPort wire = SendResult.transportFailure →
        runVivadoTclAuto false false false running false true running2 isGui2 true
            wire batchCode = AutoOutcome.oneShot batchCode) ∧
    (∀ (running2 isGui2 sendRunning : Bool) (wire : WireInput) (batchCode : Nat),
        runVivadoTclAuto false false false false false false running2 isGui2
            sendRunning wire batchCode = AutoOutcome.oneShot batchCode) := by
  refine ⟨?_, ?_, ?_⟩
  · intro running running2 isGui2 wire out bc hsend
    cases running <;>
      simp [runVivadoTclAuto, autoDetect, useServer, sendTclRun, hsend]
  · intro running running2 isGui2 wire bc hsend
    cases running <;>
      simp [runVivadoTclAuto, autoDetect, useServer, sendTclRun, hsend]
  · intro running2 isGui2 sendRunning wire bc
    simp [runVivadoTclAuto, autoDetect]

/-- C2 witness: the three dispatch rules at concrete inputs — a remote
`ERROR` response, a refused connection, and a failed daemon start. -/
theorem c2_auto_dispatch_failure_policy_witness :
    runVivadoTclAuto false false false true false true false false true
        ⟨true, ["boom", "ERROR", "END_RESPONSE"], StreamEnd.eof⟩ 7
      = AutoOutcome.daemonResult 1 ["boom"] ∧
    runVivadoTclAuto false false false true false true false false true
        ⟨false, [], StreamEnd.eof⟩ 7 = AutoOutcome.oneShot 7 ∧
    runVivadoTclAuto false false false false false false false false true
        ⟨true, [], StreamEnd.eof⟩ 7 = AutoOutcome.oneShot 7 :=
  ⟨c2_auto_dispatch_failure_policy.1 true false false
      ⟨true, ["boom", "ERROR", "END_RESPONSE"], StreamEnd.eof⟩ ["boom"] 7 (by decide),
   c2_auto_dispatch_failure_policy.2.1 true false false
      ⟨false, [], StreamEnd.eof⟩ 7 (by decide),
   c2_auto_dispatch_failure_policy.2.2 false false true ⟨true, [], StreamEnd.eof⟩ 7⟩

/-- C6 counterexample: a ping that completes normally but whose
acknowledgement (`HELLO`) does not contain `PONG` — a protocol mismatch —
returns not-reachable yet leaves the port file on disk, contrary to the
claim that every failed ping deletes it. -/
theorem c6_counterexample :
    (findServer ⟨some "4000", false⟩
        ⟨true, ["HELLO", "OK", "END_RESPONSE"], StreamEnd.eof⟩).1.running = false ∧
    (findServer ⟨some "4000", false⟩
        ⟨true, ["HELLO", "OK", "END_RESPONSE"], StreamEnd.eof⟩).2.portFile
      = some "4000" := by
  decide

/-- C6 (amended): when `find_server` reads a parsable port and the liveness
ping raises — timeout, connection refused, read error (all
transport failures here) or a remote `ERROR` status — it deletes the stale
port file and returns not-reachable; a ping that completes without the
expected `PONG` acknowledgement also returns not-reachable but leaves the
port file in place.  In particular one discovery against a port with
nothing listening removes the file. -/
theorem c6_stale_cleanup_on_raised_ping (st : DiscoveryState)
    (content : String) (port : Int) (ping : WireInput)
    (hf : st.portFile = some content) (hp : parsePort content = some port)
    (hfail : sendTclToPort ping = SendResult.transportFailure ∨
             ∃ out, sendTclToPort ping = SendResult.protocolFailure out) :
    findServer st ping
      = (⟨false, none, st.lockPresent⟩, ⟨none, st.lockPresent⟩) := by
  rcases hfail with hfail | ⟨out, hfail⟩ <;> simp [findServer, hf, hp, hfail]

/-- C6 witness: discovery against a port with nothing listening (connect
refused) deletes the port file. -/
theorem c6_stale_cleanup_on_raised_ping_witness :
    findServer ⟨some "4000", false⟩ ⟨false, [], StreamEnd.eof⟩
      = (⟨false, none, false⟩, ⟨none, false⟩) :=
  c6_stale_cleanup_on_raised_ping ⟨some "4000", false⟩ "4000" 4000
    ⟨false, [], StreamEnd.eof⟩ rfl (by decide) (Or.inl rfl)

/-- C10: a port file whose content does not parse as an integer makes
`find_server` return not-reachable with no port, without raising (the
function is total) and without touching the filesystem state — the
unparsable file stays on disk; deletion lives only on the failed-ping
branch. -/
theorem c10_unparsable_port_file_left_in_place (st : DiscoveryState)
    (content : String) (ping : WireInput)
    (hf : st.portFile = some content) (hp : parsePort content = none) :
    findServer st ping = (⟨false, none, st.lockPresent⟩, st) := by
  simp [findServer, hf, hp]

/-- C10 witness: discovery over the unparsable content `garbage` leaves the
state unchanged even though a healthy server answers the ping. -/
theorem c10_unparsable_port_file_left_in_place_witness :
    findServer ⟨some "garbage", true⟩
        ⟨true, ["PONG", "OK", "END_RESPONSE"], StreamEnd.eof⟩
      = (⟨false, none, true⟩, ⟨some "garbage", true⟩) :=
  c10_unparsable_port_file_left_in_place ⟨some "garbage", true⟩ "garbage"
    ⟨true, ["PONG", "OK", "END_RESPONSE"], StreamEnd.eof⟩ rfl (by decide)

/-- C7 counterexample: `start_daemon` opens the log with mode `"w"`
(daemon.py line 201), so a start over previous log contents leaves only the
new worker output — the earlier content is truncated, contrary to the
claimed append mode. -/
theorem c7_counterexample :
    logAfterStart "earlier content" "new run" = "new run" ∧
    logAfterStart "earlier content" "new run" ≠ "earlier content" ++ "new run" := by
  decide

/-- C7 (amended): `start_daemon` redirects the worker's combined
stdout/stderr to the per-user log file `/tmp/vproj-<uid>.log` (`getLogFile`,
a function of the user id only, shared across workspaces), but opens it in
write mode, so each start truncates the log: afterwards it holds exactly
the new worker output. -/
theorem c7_log_truncated_on_start (prev out : String) :
    logAfterStart prev out = out ∧ logOpenMode = OpenMode.write := by
  constructor
  · show String.append (openedContents logOpenMode prev) out = out
    rfl
  · rfl

/-- C8: `stop_daemon` always reports success and always ends with the port
file removed: with no reachable server it treats the state as
already-stopped (sending nothing, still cleaning up a stale port file);
with a reachable server it sends the reserved `QUIT` command with the short
5-second timeout and tolerates any outcome of that exchange, including a
dropped connection. -/
theorem c8_stop_daemon_idempotent_success (st : DiscoveryState)
    (ping quitWire : WireInput) :
    (stopDaemon st ping quitWire).ok = true ∧
    (stopDaemon st ping quitWire).state.portFile = none ∧
    (stopDaemon st ping quitWire).sent
      = (if (findServer st ping).1.running then [("QUIT", quitTimeout)] else []) := by
  by_cases h : (findServer st ping).1.running <;>
    simp [stopDaemon, cleanupFiles, h]

/-- C9: each `_send_tcl_to_port` exchange opens exactly one socket as its
first action and closes it as its last, in every outcome — success, remote
`ERROR`, refused connect, timeout or read error — and its trace agrees with
the result of the exchange; the single open/close pair per invocation means
no socket outlives a call to be reused by the next. -/
theorem c9_one_socket_per_exchange_always_closed (w : WireInput) :
    (sendTclToPortOps w).1 = sendTclToPort w ∧
    (sendTclToPortOps w).2.head? = some SockOp.openSock ∧
    (sendTclToPortOps w).2.getLast? = some SockOp.closeSock ∧
    (sendTclToPortOps w).2.count SockOp.openSock = 1 ∧
    (sendTclToPortOps w).2.count SockOp.closeSock = 1 := by
  by_cases h : w.connectOk = true <;>
    simp [sendTclToPortOps, sendTclToPort, h, List.count_cons]

end VProj
